import Mathlib

/-!
Shallow embedding of the contact data-access layer of the ProjectREST
repository (src/crud.py and src/repository/users.py), together with
theorems settling the specification claims about it.

The relational store is modelled as a list of rows; a SQLAlchemy
`select ... where cond` over one table is modelled as `List.filter`,
`scalars().first()` as `List.find?`, and a raised exception as the
`Except.error` branch of the return type.  The ORM model definitions
(src/database/models.py) are not among the given sources, so the row
types are modelled from the specification, section 3.
-/

namespace ProjectREST

/-- Modelled from the spec: a calendar date, as stored in the `birthday`
column of a contact.  `func.extract` of month or day in crud.py reads the
corresponding component. -/
structure PDate where
  year : Nat
  month : Nat
  day : Nat
deriving DecidableEq

/-- Modelled from the spec: a row of the contact table
(src/database/models.py is absent from the sources).  Spec, section 3:
id, owning user id, first_name, last_name, email, phone_number, birthday,
optional free-text note. -/
structure Contact where
  id : Nat
  user_id : Nat
  first_name : String
  last_name : String
  email : String
  phone_number : String
  birthday : PDate
  additional_data : Option String
deriving DecidableEq

/-- Modelled from the spec: a row of the user table (section 3): identity,
unique email, unique username, hashed password, confirmed flag, optional
avatar URL, optional refresh token. -/
structure User where
  id : Nat
  username : String
  email : String
  password : String
  confirmed : Bool
  avatar : Option String
  refresh_token : Option String
deriving DecidableEq

/-- Embeds crud.get_contact: first contact whose id and owning user id both
match (`select ... where and_(id == contact_id, user_id == user.id)`,
then `scalars().first()`). -/
def get_contact (db : List Contact) (contact_id : Nat) (user : User) : Option Contact :=
  db.find? (fun c => c.id == contact_id && c.user_id == user.id)

/-- Embeds crud.get_contacts: the rows of the user, offset and limit. -/
def get_contacts (db : List Contact) (user : User) (skip : Nat := 0)
    (limit : Nat := 100) : List Contact :=
  ((db.filter (fun c => c.user_id == user.id)).drop skip).take limit

/-- Python truthiness of an optional string argument: `if first_name:` in
crud.search_contacts is false for None and for the empty string. -/
def truthy : Option String → Bool
  | none => false
  | some s => !(s == "")

/-- Embeds crud.delete_contact: looks the contact up with get_contact and
hands the result to `db.delete`.  When get_contact found no row the Python
passes None to `Session.delete`, which raises (UnmappedInstanceError);
that raise is the `Except.error` branch.  Otherwise the found row is
removed from the store and returned. -/
def delete_contact (db : List Contact) (contact_id : Nat) (user : User) :
    Except Unit (List Contact × Contact) :=
  match get_contact db contact_id user with
  | none => Except.error ()
  | some db_contact => Except.ok (db.erase db_contact, db_contact)

/-- Embeds crud.search_contacts: one equality condition per truthy
argument; with no condition it raises ResponseValidationError (the
`Except.error` branch); otherwise it selects the rows satisfying the
`or_` of the collected conditions. -/
def search_contacts (db : List Contact) (first_name : Option String := none)
    (last_name : Option String := none) (email : Option String := none) :
    Except Unit (List Contact) :=
  let conditions : List (Contact → Bool) :=
    (if truthy first_name then [fun c => c.first_name == first_name.getD ""] else []) ++
    (if truthy last_name then [fun c => c.last_name == last_name.getD ""] else []) ++
    (if truthy email then [fun c => c.email == email.getD ""] else [])
  if conditions.isEmpty then
    Except.error ()
  else
    Except.ok (db.filter (fun c => conditions.any (fun cond => cond c)))

/-- Embeds crud.get_contacts_by_birthday_range.  The initial query built at
the top of the Python function is overwritten in both branches and is
dead, so only the branches are embedded.  When the range crosses a year
boundary the code runs the UNION of two selects over the same table,
which yields exactly the rows satisfying either condition; otherwise a
single select with the four extract comparisons runs.  No condition on
user_id appears in any of the queries: the `user` argument is unused, as
in the source. -/
def get_contacts_by_birthday_range (db : List Contact) (start_date end_date : PDate)
    (user : User) : List Contact :=
  if end_date.year > start_date.year then
    db.filter (fun c =>
      (start_date.month ≤ c.birthday.month && start_date.day ≤ c.birthday.day) ||
      (c.birthday.month ≤ end_date.month && c.birthday.day ≤ end_date.day))
  else
    db.filter (fun c =>
      start_date.month ≤ c.birthday.month && start_date.day ≤ c.birthday.day &&
      c.birthday.month ≤ end_date.month && c.birthday.day ≤ end_date.day)

/-- Embeds schemas.ContactUpdate under `model_dump(exclude_unset=True)`
semantics: each pydantic field is either unset (`none`) or set to a
value.  The schema field `additional_data` is itself optional with
default None, so its set value is again an option; `completed` is the
extra boolean field the schema declares on top of ContactBase. -/
structure ContactUpdate where
  first_name : Option String := none
  last_name : Option String := none
  email : Option String := none
  phone_number : Option String := none
  birthday : Option PDate := none
  additional_data : Option (Option String) := none
  completed : Option Bool := none
deriving DecidableEq

/-- One key-value pair of the dictionary `contact.model_dump(exclude_unset=True)`
iterated over by crud.update_contact. -/
inductive FieldAssignment where
  | first_name (v : String)
  | last_name (v : String)
  | email (v : String)
  | phone_number (v : String)
  | birthday (v : PDate)
  | additional_data (v : Option String)
  | completed (v : Bool)
deriving DecidableEq

/-- Embeds `model_dump(exclude_unset=True)`: the set fields, in pydantic
field declaration order. -/
def model_dump_exclude_unset (u : ContactUpdate) : List FieldAssignment :=
  (match u.first_name with | some v => [FieldAssignment.first_name v] | none => []) ++
  (match u.last_name with | some v => [FieldAssignment.last_name v] | none => []) ++
  (match u.email with | some v => [FieldAssignment.email v] | none => []) ++
  (match u.phone_number with | some v => [FieldAssignment.phone_number v] | none => []) ++
  (match u.birthday with | some v => [FieldAssignment.birthday v] | none => []) ++
  (match u.additional_data with | some v => [FieldAssignment.additional_data v] | none => []) ++
  (match u.completed with | some v => [FieldAssignment.completed v] | none => [])

/-- Embeds `setattr(db_contact, key, value)` on the ORM contact row.  The
patch field `completed` has no corresponding column on the contact table
(spec, section 3), so assigning it leaves the persisted row unchanged. -/
def contact_setattr (c : Contact) : FieldAssignment → Contact
  | FieldAssignment.first_name v => { c with first_name := v }
  | FieldAssignment.last_name v => { c with last_name := v }
  | FieldAssignment.email v => { c with email := v }
  | FieldAssignment.phone_number v => { c with phone_number := v }
  | FieldAssignment.birthday v => { c with birthday := v }
  | FieldAssignment.additional_data v => { c with additional_data := v }
  | FieldAssignment.completed _ => c

/-- Embeds crud.update_contact: iterates over the set key-value pairs,
assigning each onto the existing row, commits, and returns the updated
row.  The commit persists the mutated row in place of the old one. -/
def update_contact (db : List Contact) (db_contact : Contact) (contact : ContactUpdate) :
    List Contact × Contact :=
  let updated := (model_dump_exclude_unset contact).foldl contact_setattr db_contact
  (db.map (fun c => if c == db_contact then updated else c), updated)

/-- Embeds repository.users.get_user_by_email: first user row whose email
matches. -/
def get_user_by_email (email : String) (db : List User) : Option User :=
  db.find? (fun u => u.email == email)

/-- Embeds schemas.UserModel: the registration payload. -/
structure UserModel where
  username : String
  email : String
  password : String
deriving DecidableEq

/-- Embeds repository.users.create_user.  The whole try block around the
Gravatar call is an argument: `Except.ok url` when the external fetch
returns an image URL, `Except.error e` when it raises.  On a raise the
exception is printed and swallowed, and `avatar` keeps its initial None.
The new row is persisted either way and returned; the generated id is
one past the current row count, the confirmed flag and refresh token
start at their column defaults (spec, section 3 lifecycle). -/
def create_user (body : UserModel) (gravatar_fetch : Except String String)
    (db : List User) : List User × User :=
  let avatar : Option String :=
    match gravatar_fetch with
    | Except.ok url => some url
    | Except.error _ => none
  let new_user : User :=
    { id := db.length + 1
      username := body.username
      email := body.email
      password := body.password
      confirmed := false
      avatar := avatar
      refresh_token := none }
  (db ++ [new_user], new_user)

/-- Helper for confirmed_email: the commit after mutating the found row
replaces, in place, the first row whose email matches. -/
def confirm_first (email : String) : List User → List User
  | [] => []
  | u :: rest =>
    if u.email == email then { u with confirmed := true } :: rest
    else u :: confirm_first email rest

/-- Embeds repository.users.confirmed_email: looks the user up by email
and assigns `user.confirmed = True` with no None check.  When no user has
that email, the attribute assignment on None raises (AttributeError);
that raise is the `none` branch.  Otherwise the updated store is
returned. -/
def confirmed_email (email : String) (db : List User) : Option (List User) :=
  match get_user_by_email email db with
  | none => none
  | some _ => some (confirm_first email db)

/-- Lexicographic order on (month, day) pairs, month first then day.  This
definition follows the words of the specification claim about the
birthday range (component-wise comparison taken month first then day,
lexicographic), for comparison against the embedded query. -/
def lexLE (a b : Nat × Nat) : Bool :=
  a.1 < b.1 || (a.1 == b.1 && a.2 ≤ b.2)

/-- Follows the words of the specification claim for a non-wrapping range:
the birthday (month, day) is between the start bound and the end bound in
the lexicographic order. -/
def spec_birthday_in_range_lex (start_date end_date : PDate) (c : Contact) : Bool :=
  lexLE (start_date.month, start_date.day) (c.birthday.month, c.birthday.day) &&
  lexLE (c.birthday.month, c.birthday.day) (end_date.month, end_date.day)

/-- The condition the embedded non-wrapping query actually applies: both
components bounded on both sides. -/
def componentwise_in_range (start_date end_date : PDate) (c : Contact) : Bool :=
  start_date.month ≤ c.birthday.month && start_date.day ≤ c.birthday.day &&
  c.birthday.month ≤ end_date.month && c.birthday.day ≤ end_date.day

/-- The condition the embedded year-wrapping union applies: either part of
the union matches. -/
def componentwise_wrap (start_date end_date : PDate) (c : Contact) : Bool :=
  (start_date.month ≤ c.birthday.month && start_date.day ≤ c.birthday.day) ||
  (c.birthday.month ≤ end_date.month && c.birthday.day ≤ end_date.day)

/-- The disjunction of the per-field equality conditions that
search_contacts collects: a contact matches when some truthy argument
equals the corresponding field. -/
def matches_any_criterion (first_name last_name email : Option String) (c : Contact) : Bool :=
  (truthy first_name && (c.first_name == first_name.getD "")) ||
  (truthy last_name && (c.last_name == last_name.getD "")) ||
  (truthy email && (c.email == email.getD ""))

/-- Fixture: a user account with id 1. -/
def u1 : User := ⟨1, "alice", "alice@example.com", "pass", false, none, none⟩

/-- Fixture: a contact owned by user 2, born February 1. -/
def cFeb1 : Contact :=
  ⟨1, 2, "Carl", "Stone", "carl@example.com", "1234567890", ⟨1990, 2, 1⟩, none⟩

/-- Fixture: a contact owned by user 1, born January 28. -/
def cJan28 : Contact :=
  ⟨1, 1, "Jane", "Doe", "jane@example.com", "1234567890", ⟨2000, 1, 28⟩, none⟩

/-- Fixture: a contact owned by user 1, born December 30. -/
def cDec30 : Contact :=
  ⟨1, 1, "Dina", "Winter", "dina@example.com", "1234567890", ⟨1990, 12, 30⟩, none⟩

/-- Fixture: a contact owned by user 1, born January 2. -/
def cJan2 : Contact :=
  ⟨2, 1, "Jon", "Newman", "jon@example.com", "1234567891", ⟨1985, 1, 2⟩, none⟩

/-- Fixture: a contact owned by user 1, born June 15. -/
def cJun15 : Contact :=
  ⟨3, 1, "Mia", "Summer", "mia@example.com", "1234567892", ⟨1992, 6, 15⟩, none⟩

/-- Fixture: a contact with first name John, owned by user 1. -/
def john : Contact :=
  ⟨1, 1, "John", "Doe", "john@example.com", "1234567890", ⟨1990, 5, 1⟩, none⟩

/-- Fixture: a contact with first name Robert, owned by user 2. -/
def bobC : Contact :=
  ⟨2, 2, "Robert", "Roe", "rob@example.com", "0987654321", ⟨1991, 6, 2⟩, none⟩

/-- Fixture dates. -/
def sFeb1 : PDate := ⟨2024, 2, 1⟩

/-- Fixture: end of a one-week range inside February. -/
def eFeb7 : PDate := ⟨2024, 2, 7⟩

/-- Fixture: start of a range crossing from January into February. -/
def sJan28 : PDate := ⟨2024, 1, 28⟩

/-- Fixture: end of a range crossing from January into February. -/
def eFeb3 : PDate := ⟨2024, 2, 3⟩

/-- Fixture: start of a range crossing the year boundary. -/
def sDec28 : PDate := ⟨2024, 12, 28⟩

/-- Fixture: end of a range crossing the year boundary. -/
def eJan4 : PDate := ⟨2025, 1, 4⟩

/-- Helper: after confirm_first, looking the same email up finds the found
user with the confirmed flag set. -/
theorem find_after_confirm_first (email : String) (db : List User) (u : User)
    (h : get_user_by_email email db = some u) :
    get_user_by_email email (confirm_first email db) = some { u with confirmed := true } := by
  induction db with
  | nil => simp [get_user_by_email] at h
  | cons v rest ih =>
    unfold get_user_by_email at h ih ⊢
    unfold confirm_first
    cases hv : v.email == email with
    | true =>
      simp [List.find?, hv] at h
      subst h
      simp [List.find?, hv]
    | false =>
      simp only [List.find?, hv] at h
      simp [hv, List.find?]
      exact ih h

/-- Helper: confirm_first is idempotent. -/
theorem confirm_first_idem (email : String) (db : List User) :
    confirm_first email (confirm_first email db) = confirm_first email db := by
  induction db with
  | nil => rfl
  | cons v rest ih =>
    unfold confirm_first
    cases hv : v.email == email with
    | true => simp [hv, confirm_first]
    | false => simp [hv, confirm_first, ih]

/-- C1, counterexample: the birthday-range query returns a contact owned
by user 2 when called for user 1, so it does not return only contacts
owned by the given user. -/
theorem birthday_range_returns_foreign_contact :
    cFeb1 ∈ get_contacts_by_birthday_range [cFeb1] sFeb1 eFeb7 u1 ∧ cFeb1.user_id ≠ u1.id := by
  decide

/-- C1, amended: get_contacts_by_birthday_range does not scope its result
to the given user.  The result is the same for any two users, and a
contact is returned exactly when it is in the store and its birthday
satisfies the branch condition, with no constraint on its owning user
id. -/
theorem birthday_range_not_scoped_to_user (db : List Contact) (start_date end_date : PDate)
    (u v : User) (c : Contact) :
    (c ∈ get_contacts_by_birthday_range db start_date end_date u ↔
      c ∈ get_contacts_by_birthday_range db start_date end_date v) ∧
    (c ∈ get_contacts_by_birthday_range db start_date end_date u ↔
      c ∈ db ∧ (if end_date.year > start_date.year then componentwise_wrap start_date end_date c
        else componentwise_in_range start_date end_date c) = true) := by
  refine ⟨Iff.rfl, ?_⟩
  by_cases h : end_date.year > start_date.year
  · simp [get_contacts_by_birthday_range, componentwise_wrap, List.mem_filter, h]
  · simp [get_contacts_by_birthday_range, componentwise_in_range, List.mem_filter, h]

/-- C2, counterexample: in the same-year range January 28 to February 3, a
contact born exactly on the start date, month 1 day 28, is excluded by
the query, although its (month, day) lies within the range bounds in the
lexicographic order and the claim says both boundary dates are
included. -/
theorem birthday_range_drops_start_boundary :
    eFeb3.year = sJan28.year ∧
    cJan28.birthday.month = sJan28.month ∧ cJan28.birthday.day = sJan28.day ∧
    spec_birthday_in_range_lex sJan28 eFeb3 cJan28 = true ∧
    cJan28 ∉ get_contacts_by_birthday_range [cJan28] sJan28 eFeb3 u1 := by
  decide

/-- C2, amended: for a non-year-wrapping range, the query returns exactly
the contacts whose birthday month lies between the start month and the
end month and whose birthday day lies between the start day and the end
day, each component compared separately; a boundary-date contact is
returned only when both component bounds hold for it, not
unconditionally. -/
theorem birthday_range_same_year_componentwise (db : List Contact)
    (start_date end_date : PDate) (u : User) (c : Contact)
    (h : end_date.year = start_date.year) :
    c ∈ get_contacts_by_birthday_range db start_date end_date u ↔
      c ∈ db ∧ componentwise_in_range start_date end_date c = true := by
  have hn : ¬ end_date.year > start_date.year := by omega
  simp [get_contacts_by_birthday_range, componentwise_in_range, List.mem_filter, hn]

/-- C2, witness for the amended theorem at a concrete range inside one
month. -/
theorem birthday_range_same_year_componentwise_witness :
    cFeb1 ∈ get_contacts_by_birthday_range [cFeb1] sFeb1 eFeb7 u1 :=
  (birthday_range_same_year_componentwise [cFeb1] sFeb1 eFeb7 u1 cFeb1 rfl).mpr (by decide)

/-- C3: for a range whose end year exceeds its start year, the query
returns exactly the union of the contacts whose birthday (month, day) is
componentwise at least the start bound and those whose birthday
(month, day) is componentwise at most the end bound. -/
theorem birthday_range_wrap_union (db : List Contact) (start_date end_date : PDate)
    (u : User) (c : Contact) (h : end_date.year > start_date.year) :
    c ∈ get_contacts_by_birthday_range db start_date end_date u ↔
      c ∈ db ∧
        ((start_date.month ≤ c.birthday.month ∧ start_date.day ≤ c.birthday.day) ∨
          (c.birthday.month ≤ end_date.month ∧ c.birthday.day ≤ end_date.day)) := by
  simp [get_contacts_by_birthday_range, List.mem_filter, h]

/-- C3, witness: over the range December 28 to January 4 of the next
year, contacts born December 30 and January 2 are returned and a contact
born June 15 is not. -/
theorem birthday_range_wrap_union_witness :
    cDec30 ∈ get_contacts_by_birthday_range [cDec30, cJan2, cJun15] sDec28 eJan4 u1 ∧
    cJan2 ∈ get_contacts_by_birthday_range [cDec30, cJan2, cJun15] sDec28 eJan4 u1 ∧
    cJun15 ∉ get_contacts_by_birthday_range [cDec30, cJan2, cJun15] sDec28 eJan4 u1 := by
  refine ⟨(birthday_range_wrap_union _ sDec28 eJan4 u1 _ (by decide)).mpr (by decide),
    (birthday_range_wrap_union _ sDec28 eJan4 u1 _ (by decide)).mpr (by decide),
    fun hmem => absurd ((birthday_range_wrap_union _ sDec28 eJan4 u1 _ (by decide)).mp hmem)
      (by decide)⟩

/-- C4, counterexample: calling search_contacts with the first_name
criterion supplied as the empty string, and the other two absent, still
raises the validation error, so supplying at least one criterion does not
guarantee the absence of the validation error. -/
theorem search_supplied_empty_criterion_raises :
    search_contacts [] (some "") none none = Except.error () := rfl

/-- C4, amended: search_contacts fails with the validation error exactly
when every criterion is absent or empty; in particular it fails when all
three are absent, and supplying at least one non-empty criterion avoids
the validation error, for any store content. -/
theorem search_error_iff_no_truthy_criterion (db : List Contact)
    (first_name last_name email : Option String) :
    search_contacts db first_name last_name email = Except.error () ↔
      truthy first_name = false ∧ truthy last_name = false ∧ truthy email = false := by
  unfold search_contacts
  cases hf : truthy first_name <;> cases hl : truthy last_name <;> cases he : truthy email <;>
    simp [hf, hl, he]

/-- C5: when at least one criterion is truthy, search_contacts succeeds
and returns exactly the contacts of the whole store matching at least one
of the supplied criteria, with no condition on the owning user. -/
theorem search_or_semantics (db : List Contact) (first_name last_name email : Option String)
    (h : (truthy first_name || truthy last_name || truthy email) = true) :
    search_contacts db first_name last_name email =
      Except.ok (db.filter (matches_any_criterion first_name last_name email)) := by
  unfold search_contacts matches_any_criterion
  cases hf : truthy first_name <;> cases hl : truthy last_name <;> cases he : truthy email <;>
    simp [hf, hl, he, Bool.or_assoc] at h ⊢

/-- C5, witness: searching for first name John over a store holding a
John owned by user 1 and a Robert owned by user 2 returns exactly the
John row. -/
theorem search_or_semantics_witness :
    search_contacts [john, bobC] (some "John") none none = Except.ok [john] := by
  rw [search_or_semantics [john, bobC] (some "John") none none (by decide)]
  exact congrArg Except.ok (by decide)

/-- C6: update_contact overwrites exactly the fields set in the partial
input and leaves every unset field, as well as the id and the owning user
id, unchanged on the returned record; each field of the result is the
patch value when set and the prior value otherwise. -/
theorem update_contact_partial_merge (db : List Contact) (db_contact : Contact)
    (contact : ContactUpdate) :
    (update_contact db db_contact contact).2.id = db_contact.id ∧
    (update_contact db db_contact contact).2.user_id = db_contact.user_id ∧
    (update_contact db db_contact contact).2.first_name
      = contact.first_name.getD db_contact.first_name ∧
    (update_contact db db_contact contact).2.last_name
      = contact.last_name.getD db_contact.last_name ∧
    (update_contact db db_contact contact).2.email
      = contact.email.getD db_contact.email ∧
    (update_contact db db_contact contact).2.phone_number
      = contact.phone_number.getD db_contact.phone_number ∧
    (update_contact db db_contact contact).2.birthday
      = contact.birthday.getD db_contact.birthday ∧
    (update_contact db db_contact contact).2.additional_data
      = contact.additional_data.getD db_contact.additional_data := by
  obtain ⟨fn, ln, em, ph, bd, ad, cp⟩ := contact
  cases fn <;> cases ln <;> cases em <;> cases ph <;> cases bd <;> cases ad <;> cases cp <;>
    simp [update_contact, model_dump_exclude_unset, contact_setattr]

/-- C7, counterexample: deleting an id that matches no contact of the
user does not return the not-found signal as a normal value; the lookup
yields the absence value, the session delete raises on it, and the call
fails. -/
theorem delete_contact_absent_raises :
    get_contact [] 1 u1 = none ∧ delete_contact [] 1 u1 = Except.error () := by
  exact ⟨rfl, rfl⟩

/-- C7, amended: delete_contact loads the record scoped to the user; when
it exists it is removed from the store and returned, and when no contact
with that id belongs to the user the call faults, because the absence
value is handed to the session delete, which raises, instead of the
not-found signal being returned. -/
theorem delete_contact_spec (db : List Contact) (contact_id : Nat) (user : User) :
    (get_contact db contact_id user = none →
      delete_contact db contact_id user = Except.error ()) ∧
    (∀ c, get_contact db contact_id user = some c →
      c ∈ db ∧ delete_contact db contact_id user = Except.ok (db.erase c, c)) := by
  constructor
  · intro h
    simp [delete_contact, h]
  · intro c h
    have hm : List.find? (fun x => x.id == contact_id && x.user_id == user.id) db = some c := h
    exact ⟨List.mem_of_find?_eq_some hm, by simp [delete_contact, h]⟩

/-- C7, witness for the amended theorem: both branches at concrete
stores. -/
theorem delete_contact_spec_witness :
    delete_contact [cJan28] 1 u1 = Except.ok ([cJan28].erase cJan28, cJan28) ∧
    delete_contact [] 1 u1 = Except.error () :=
  ⟨((delete_contact_spec [cJan28] 1 u1).2 cJan28 (by decide)).2,
    (delete_contact_spec [] 1 u1).1 rfl⟩

/-- C8: when the external avatar fetch raises, create_user still persists
the new account, with no avatar, carrying the given email and username,
and returns it: the new store is the old one with the returned row
appended. -/
theorem create_user_survives_avatar_failure (body : UserModel) (err : String)
    (db : List User) :
    (create_user body (Except.error err) db).2.avatar = none ∧
    (create_user body (Except.error err) db).2.email = body.email ∧
    (create_user body (Except.error err) db).2.username = body.username ∧
    (create_user body (Except.error err) db).1
      = db ++ [(create_user body (Except.error err) db).2] := by
  simp [create_user]

/-- C9: search_contacts treats an empty-string criterion as not supplied:
replacing an empty-string argument by the absent value never changes the
result, and calling with first_name empty and the other criteria absent
raises the validation error. -/
theorem search_treats_empty_string_as_missing (db : List Contact)
    (first_name last_name email : Option String) :
    search_contacts db (some "") last_name email = search_contacts db none last_name email ∧
    search_contacts db first_name (some "") email = search_contacts db first_name none email ∧
    search_contacts db first_name last_name (some "")
      = search_contacts db first_name last_name none ∧
    search_contacts db (some "") none none = Except.error () :=
  ⟨rfl, rfl, rfl, rfl⟩

/-- C10: when a user with the given email exists, confirmed_email sets
the confirmed flag of that user to true, a repeated call returns the same
store, and when no user with the email exists the call faults, modelled
by the absence value, because the attribute assignment happens on the
missing-user value. -/
theorem confirmed_email_spec (email : String) (db : List User) :
    (get_user_by_email email db = none → confirmed_email email db = none) ∧
    (∀ u, get_user_by_email email db = some u →
      confirmed_email email db = some (confirm_first email db) ∧
      get_user_by_email email (confirm_first email db) = some { u with confirmed := true } ∧
      confirmed_email email (confirm_first email db) = some (confirm_first email db)) := by
  constructor
  · intro h
    simp [confirmed_email, h]
  · intro u h
    have h2 := find_after_confirm_first email db u h
    exact ⟨by simp [confirmed_email, h], h2,
      by simp [confirmed_email, h2, confirm_first_idem]⟩

/-- C10, witness: confirming an existing account at a concrete store. -/
theorem confirmed_email_spec_witness :
    confirmed_email "alice@example.com" [u1] = some (confirm_first "alice@example.com" [u1]) ∧
    get_user_by_email "alice@example.com" (confirm_first "alice@example.com" [u1])
      = some { u1 with confirmed := true } ∧
    confirmed_email "alice@example.com" (confirm_first "alice@example.com" [u1])
      = some (confirm_first "alice@example.com" [u1]) :=
  (confirmed_email_spec "alice@example.com" [u1]).2 u1 (by decide)

end ProjectREST
